import Mathlib

/-!
Shallow embedding of the chomp3 MPEG-audio header decoder
(src/constants.rs, src/utils.rs, src/header.rs).

A `BitVec<u8>` holding a header bit-group is modelled as a `List Bool`
in stream order (index 0 is the first bit of the group).  The field
decoders do not match on the bits: they call `BitVec::into_vec()`,
which in the bitvec crate (store `u8`, default order `Lsb0`) returns
the underlying packed storage vector - one `u8` per 8 bits, bit `i`
of the group sitting at bit `i % 8` of byte `i / 8`.  That storage
vector is modelled by `intoVec` below, so a 1, 2 or 4 bit group
yields a one-element byte list, and the source's slice patterns of
length 2 or 4 can never match it: those arms are dead code, kept here
arm for arm as the source writes them.

Rust code that can panic is modelled with the `Outcome` type below:
`Outcome.ok` is normal return, `Outcome.panic msg` is a process abort
via `panic!` / `unreachable!` / a failed `assert_eq!` / an
out-of-range slice index.  The process-wide `CURSOR` atomic of
src/utils.rs is modelled by threading its value (a `Nat`) in and out
of every function that reads or writes it.
-/

namespace Chomp3

/-- Result of running Rust code that may panic: either a value or a
process abort carrying the panic message. -/
inductive Outcome (α : Type) : Type where
  | ok : α → Outcome α
  | panic : String → Outcome α
  deriving DecidableEq

/-- True exactly when the outcome is a normal return. -/
def Outcome.isOk {α : Type} : Outcome α → Bool
  | Outcome.ok _ => true
  | Outcome.panic _ => false

/-! Constants from src/constants.rs. -/

abbrev HEADER_SIZE : Nat := 32

abbrev SYNC_SIZE : Nat := 12

abbrev ID_SIZE : Nat := 1

abbrev LAYER_SIZE : Nat := 2

abbrev PROTECTION_BIT_SIZE : Nat := 1

abbrev BITRATE_SIZE : Nat := 4

abbrev FREQUENCY_SIZE : Nat := 2

abbrev PADDING_BIT_SIZE : Nat := 1

abbrev PRIVATE_BIT_SIZE : Nat := 1

abbrev MODE_SIZE : Nat := 2

abbrev MODE_EXTENSION_SIZE : Nat := 2

abbrev COPYRIGHT_BIT_SIZE : Nat := 1

abbrev HOME_SIZE : Nat := 1

abbrev EMPHASIS_SIZE : Nat := 2

/-- `access` from src/utils.rs.  It loads the process-wide `CURSOR`,
copies `array[cursor..cursor + size]` (a Rust slice-index panic when
the range end exceeds the buffer length; in that case the store to
`CURSOR` is never executed), then stores `cursor + size`.  The cursor
value is passed in and returned explicitly. -/
def access (array : List Bool) (size : Nat) (cursor : Nat) :
    Outcome (List Bool) × Nat :=
  if cursor + size ≤ array.length then
    (Outcome.ok ((array.drop cursor).take size), cursor + size)
  else
    (Outcome.panic "index out of range", cursor)

/-- `RawHeader` from src/header.rs: the thirteen raw bit-groups. -/
structure RawHeader : Type where
  sync : List Bool
  id : List Bool
  layer : List Bool
  protection_bit : List Bool
  bitrate : List Bool
  frequency : List Bool
  padding_bit : List Bool
  private_bit : List Bool
  mode : List Bool
  mode_extension : List Bool
  copyright_bit : List Bool
  home : List Bool
  emphasis : List Bool
  deriving DecidableEq

/-- Sequencing of two cursor-threaded computations: a panic in the
first step aborts the whole computation (Rust unwinding), otherwise
the produced value and updated cursor feed the continuation. -/
def andThen {α β : Type} (x : Outcome α × Nat) (k : α → Nat → Outcome β × Nat) :
    Outcome β × Nat :=
  match x with
  | (Outcome.ok a, c) => k a c
  | (Outcome.panic m, c) => (Outcome.panic m, c)

/-- `RawHeader::new` from src/header.rs: thirteen successive `access`
calls, one per field, in declaration order. -/
def RawHeader.new (array : List Bool) (cursor : Nat) : Outcome RawHeader × Nat :=
  andThen (access array SYNC_SIZE cursor) fun sync c1 =>
  andThen (access array ID_SIZE c1) fun id c2 =>
  andThen (access array LAYER_SIZE c2) fun layer c3 =>
  andThen (access array PROTECTION_BIT_SIZE c3) fun protection_bit c4 =>
  andThen (access array BITRATE_SIZE c4) fun bitrate c5 =>
  andThen (access array FREQUENCY_SIZE c5) fun frequency c6 =>
  andThen (access array PADDING_BIT_SIZE c6) fun padding_bit c7 =>
  andThen (access array PRIVATE_BIT_SIZE c7) fun private_bit c8 =>
  andThen (access array MODE_SIZE c8) fun mode c9 =>
  andThen (access array MODE_EXTENSION_SIZE c9) fun mode_extension c10 =>
  andThen (access array COPYRIGHT_BIT_SIZE c10) fun copyright_bit c11 =>
  andThen (access array HOME_SIZE c11) fun home c12 =>
  andThen (access array EMPHASIS_SIZE c12) fun emphasis c13 =>
  (Outcome.ok ⟨sync, id, layer, protection_bit, bitrate, frequency, padding_bit,
    private_bit, mode, mode_extension, copyright_bit, home, emphasis⟩, c13)

/-- Packs a bit list into its Lsb0 storage bytes, carrying the byte
value accumulated so far and the bit index (0..7) inside the current
byte.  A partially filled final byte is emitted with its unused high
bits zero, matching the rebased copy that `to_bitvec` produces for a
freshly extracted group. -/
def intoVecAux : List Bool → Nat → Nat → List Nat
  | [], acc, i => if i = 0 then [] else [acc]
  | b :: rest, acc, i =>
    if i = 7 then (acc + (if b then 2 ^ i else 0)) :: intoVecAux rest 0 0
    else intoVecAux rest (acc + (if b then 2 ^ i else 0)) (i + 1)

/-- `BitVec::<u8, Lsb0>::into_vec()`: the underlying packed storage
vector of a bit-group - one byte per 8 bits, bit `i` of the group at
bit `i % 8` of byte `i / 8`.  A 1, 2 or 4 bit group therefore yields
a ONE-element byte list, never a list with one element per bit. -/
def intoVec (bits : List Bool) : List Nat :=
  intoVecAux bits 0 0

/-! Semantic field types from src/header.rs. -/

inductive MPEG_Version : Type where
  | Reserved
  | One
  | Two
  | TwoPointFive
  deriving DecidableEq, Fintype

inductive Layer : Type where
  | Reserved
  | Three
  | Two
  | One
  deriving DecidableEq, Fintype

inductive Protected : Type where
  | Yes
  | No
  deriving DecidableEq

/-- `Bitrate(usize)`, in kbps. -/
structure Bitrate : Type where
  val : Nat
  deriving DecidableEq

/-- `Frequency(usize)`, in Hz. -/
structure Frequency : Type where
  val : Nat
  deriving DecidableEq

inductive Mode : Type where
  | Stereo
  | JointStereo
  | DualChannel
  | SingleChannel
  deriving DecidableEq

inductive Copyright : Type where
  | On
  | Off
  deriving DecidableEq

inductive Home : Type where
  | On
  | Off
  deriving DecidableEq

inductive Emphasis : Type where
  | On
  | Off
  deriving DecidableEq

/-- `impl From<BitVec<u8>> for MPEG_Version`: dispatches on the
length of the bit-group (1-bit form, legacy 2-bit form, otherwise
`unreachable!`, here a shape match on the list), then pattern-matches
`bits.into_vec()[..]`.  For the 2-bit form the storage vector has one
byte, so the length-2 patterns (including the `panic!("reserved")`
arm) are dead and every 2-bit input falls to the catch-all. -/
def MPEG_Version.fromBitVec (bits : List Bool) : Outcome MPEG_Version :=
  match bits with
  | [_] =>
    match intoVec bits with
    | [0] => Outcome.ok MPEG_Version.Two
    | [1] => Outcome.ok MPEG_Version.One
    | _ => Outcome.panic "unreachable"
  | [_, _] =>
    match intoVec bits with
    | [0, 0] => Outcome.ok MPEG_Version.TwoPointFive
    | [0, 1] => Outcome.panic "reserved"
    | [1, 0] => Outcome.ok MPEG_Version.Two
    | [1, 1] => Outcome.ok MPEG_Version.One
    | _ => Outcome.panic "unreachable"
  | _ => Outcome.panic "unreachable"

/-- `impl From<BitVec<u8>> for Layer`: asserts the width is
`LAYER_SIZE`, then pattern-matches `bits.into_vec()[..]` - a
one-byte storage vector, so all four length-2 arms (including
`panic!("reserved")` for `00`) are dead and every 2-bit input falls
to `unreachable!()`. -/
def Layer.fromBitVec (bits : List Bool) : Outcome Layer :=
  if bits.length = LAYER_SIZE then
    match intoVec bits with
    | [0, 0] => Outcome.panic "reserved"
    | [0, 1] => Outcome.ok Layer.Three
    | [1, 0] => Outcome.ok Layer.Two
    | [1, 1] => Outcome.ok Layer.One
    | _ => Outcome.panic "unreachable"
  else Outcome.panic "assertion failed"

/-- `impl From<BitVec<u8>> for Protected`: a 1-bit group's storage
vector is its single bit as a byte, 0 or 1, so the one-element
patterns do match. -/
def Protected.fromBitVec (bits : List Bool) : Outcome Protected :=
  if bits.length = PROTECTION_BIT_SIZE then
    match intoVec bits with
    | [0] => Outcome.ok Protected.No
    | [1] => Outcome.ok Protected.Yes
    | _ => Outcome.panic "unreachable"
  else Outcome.panic "assertion failed"

/-- `Bitrate::from_bitvecu8`: asserts the width is `BITRATE_SIZE`,
then pattern-matches `bits.into_vec()[..]` against the (code,
version, layer) table of src/header.rs.  The storage vector of a
4-bit group is one byte, so every length-4 arm - the whole table,
plus the `unreachable!()` arms for `0000` and `1111` - is dead, and
every 4-bit input falls to the catch-all `unreachable!()`. -/
def Bitrate.from_bitvecu8 (bits : List Bool) (version : MPEG_Version)
    (layer : Layer) : Outcome Bitrate :=
  if bits.length = BITRATE_SIZE then
    match intoVec bits with
    | [0, 0, 0, 0] => Outcome.panic "unreachable"
    | [0, 0, 0, 1] =>
      match version, layer with
      | MPEG_Version.One, Layer.One
      | MPEG_Version.One, Layer.Two
      | MPEG_Version.One, Layer.Three
      | MPEG_Version.Two, Layer.One
      | MPEG_Version.Two, Layer.Two => Outcome.ok ⟨32⟩
      | MPEG_Version.Two, Layer.Three => Outcome.ok ⟨8⟩
      | _, _ => Outcome.panic "unreachable"
    | [0, 0, 1, 0] =>
      match version, layer with
      | MPEG_Version.One, Layer.One => Outcome.ok ⟨64⟩
      | MPEG_Version.One, Layer.Two => Outcome.ok ⟨48⟩
      | MPEG_Version.One, Layer.Three => Outcome.ok ⟨40⟩
      | MPEG_Version.Two, Layer.One => Outcome.ok ⟨64⟩
      | MPEG_Version.Two, Layer.Two => Outcome.ok ⟨48⟩
      | MPEG_Version.Two, Layer.Three => Outcome.ok ⟨16⟩
      | _, _ => Outcome.panic "unreachable"
    | [0, 0, 1, 1] =>
      match version, layer with
      | MPEG_Version.One, Layer.One => Outcome.ok ⟨96⟩
      | MPEG_Version.One, Layer.Two => Outcome.ok ⟨56⟩
      | MPEG_Version.One, Layer.Three => Outcome.ok ⟨48⟩
      | MPEG_Version.Two, Layer.One => Outcome.ok ⟨96⟩
      | MPEG_Version.Two, Layer.Two => Outcome.ok ⟨56⟩
      | MPEG_Version.Two, Layer.Three => Outcome.ok ⟨24⟩
      | _, _ => Outcome.panic "unreachable"
    | [0, 1, 0, 0] =>
      match version, layer with
      | MPEG_Version.One, Layer.One => Outcome.ok ⟨128⟩
      | MPEG_Version.One, Layer.Two => Outcome.ok ⟨64⟩
      | MPEG_Version.One, Layer.Three => Outcome.ok ⟨56⟩
      | MPEG_Version.Two, Layer.One => Outcome.ok ⟨128⟩
      | MPEG_Version.Two, Layer.Two => Outcome.ok ⟨64⟩
      | MPEG_Version.Two, Layer.Three => Outcome.ok ⟨32⟩
      | _, _ => Outcome.panic "unreachable"
    | [0, 1, 0, 1] =>
      match version, layer with
      | MPEG_Version.One, Layer.One => Outcome.ok ⟨160⟩
      | MPEG_Version.One, Layer.Two => Outcome.ok ⟨80⟩
      | MPEG_Version.One, Layer.Three => Outcome.ok ⟨64⟩
      | MPEG_Version.Two, Layer.One => Outcome.ok ⟨160⟩
      | MPEG_Version.Two, Layer.Two => Outcome.ok ⟨80⟩
      | MPEG_Version.Two, Layer.Three => Outcome.ok ⟨64⟩
      | _, _ => Outcome.panic "unreachable"
    | [0, 1, 1, 0] =>
      match version, layer with
      | MPEG_Version.One, Layer.One => Outcome.ok ⟨192⟩
      | MPEG_Version.One, Layer.Two => Outcome.ok ⟨96⟩
      | MPEG_Version.One, Layer.Three => Outcome.ok ⟨80⟩
      | MPEG_Version.Two, Layer.One => Outcome.ok ⟨192⟩
      | MPEG_Version.Two, Layer.Two => Outcome.ok ⟨96⟩
      | MPEG_Version.Two, Layer.Three => Outcome.ok ⟨80⟩
      | _, _ => Outcome.panic "unreachable"
    | [0, 1, 1, 1] =>
      match version, layer with
      | MPEG_Version.One, Layer.One => Outcome.ok ⟨224⟩
      | MPEG_Version.One, Layer.Two => Outcome.ok ⟨112⟩
      | MPEG_Version.One, Layer.Three => Outcome.ok ⟨96⟩
      | MPEG_Version.Two, Layer.One => Outcome.ok ⟨224⟩
      | MPEG_Version.Two, Layer.Two => Outcome.ok ⟨112⟩
      | MPEG_Version.Two, Layer.Three => Outcome.ok ⟨56⟩
      | _, _ => Outcome.panic "unreachable"
    | [1, 0, 0, 0] =>
      match version, layer with
      | MPEG_Version.One, Layer.One => Outcome.ok ⟨256⟩
      | MPEG_Version.One, Layer.Two => Outcome.ok ⟨128⟩
      | MPEG_Version.One, Layer.Three => Outcome.ok ⟨112⟩
      | MPEG_Version.Two, Layer.One => Outcome.ok ⟨256⟩
      | MPEG_Version.Two, Layer.Two => Outcome.ok ⟨128⟩
      | MPEG_Version.Two, Layer.Three => Outcome.ok ⟨64⟩
      | _, _ => Outcome.panic "unreachable"
    | [1, 0, 0, 1] =>
      match version, layer with
      | MPEG_Version.One, Layer.One => Outcome.ok ⟨288⟩
      | MPEG_Version.One, Layer.Two => Outcome.ok ⟨160⟩
      | MPEG_Version.One, Layer.Three => Outcome.ok ⟨128⟩
      | MPEG_Version.Two, Layer.One => Outcome.ok ⟨288⟩
      | MPEG_Version.Two, Layer.Two => Outcome.ok ⟨160⟩
      | MPEG_Version.Two, Layer.Three => Outcome.ok ⟨128⟩
      | _, _ => Outcome.panic "unreachable"
    | [1, 0, 1, 0] =>
      match version, layer with
      | MPEG_Version.One, Layer.One => Outcome.ok ⟨320⟩
      | MPEG_Version.One, Layer.Two => Outcome.ok ⟨192⟩
      | MPEG_Version.One, Layer.Three => Outcome.ok ⟨160⟩
      | MPEG_Version.Two, Layer.One => Outcome.ok ⟨320⟩
      | MPEG_Version.Two, Layer.Two => Outcome.ok ⟨192⟩
      | MPEG_Version.Two, Layer.Three => Outcome.ok ⟨160⟩
      | _, _ => Outcome.panic "unreachable"
    | [1, 0, 1, 1] =>
      match version, layer with
      | MPEG_Version.One, Layer.One => Outcome.ok ⟨352⟩
      | MPEG_Version.One, Layer.Two => Outcome.ok ⟨224⟩
      | MPEG_Version.One, Layer.Three => Outcome.ok ⟨192⟩
      | MPEG_Version.Two, Layer.One => Outcome.ok ⟨352⟩
      | MPEG_Version.Two, Layer.Two => Outcome.ok ⟨224⟩
      | MPEG_Version.Two, Layer.Three => Outcome.ok ⟨112⟩
      | _, _ => Outcome.panic "unreachable"
    | [1, 1, 0, 0] =>
      match version, layer with
      | MPEG_Version.One, Layer.One => Outcome.ok ⟨384⟩
      | MPEG_Version.One, Layer.Two => Outcome.ok ⟨256⟩
      | MPEG_Version.One, Layer.Three => Outcome.ok ⟨224⟩
      | MPEG_Version.Two, Layer.One => Outcome.ok ⟨384⟩
      | MPEG_Version.Two, Layer.Two => Outcome.ok ⟨256⟩
      | MPEG_Version.Two, Layer.Three => Outcome.ok ⟨128⟩
      | _, _ => Outcome.panic "unreachable"
    | [1, 1, 0, 1] =>
      match version, layer with
      | MPEG_Version.One, Layer.One => Outcome.ok ⟨416⟩
      | MPEG_Version.One, Layer.Two => Outcome.ok ⟨320⟩
      | MPEG_Version.One, Layer.Three => Outcome.ok ⟨256⟩
      | MPEG_Version.Two, Layer.One => Outcome.ok ⟨416⟩
      | MPEG_Version.Two, Layer.Two => Outcome.ok ⟨320⟩
      | MPEG_Version.Two, Layer.Three => Outcome.ok ⟨256⟩
      | _, _ => Outcome.panic "unreachable"
    | [1, 1, 1, 0] =>
      match version, layer with
      | MPEG_Version.One, Layer.One => Outcome.ok ⟨448⟩
      | MPEG_Version.One, Layer.Two => Outcome.ok ⟨384⟩
      | MPEG_Version.One, Layer.Three => Outcome.ok ⟨320⟩
      | MPEG_Version.Two, Layer.One => Outcome.ok ⟨448⟩
      | MPEG_Version.Two, Layer.Two => Outcome.ok ⟨384⟩
      | MPEG_Version.Two, Layer.Three => Outcome.ok ⟨320⟩
      | _, _ => Outcome.panic "unreachable"
    | [1, 1, 1, 1] => Outcome.panic "unreachable"
    | _ => Outcome.panic "unreachable"
  else Outcome.panic "assertion failed"

/-- `Frequency::from_bitvecu8`: asserts the width is
`FREQUENCY_SIZE`, then pattern-matches `bits.into_vec()[..]` against
the (code, version) table; the storage vector of a 2-bit group is one
byte, so the table arms and the `panic!("reserved")` arm for `11` are
all dead, and every 2-bit input falls to `unreachable!()`. -/
def Frequency.from_bitvecu8 (bits : List Bool) (version : MPEG_Version) :
    Outcome Frequency :=
  if bits.length = FREQUENCY_SIZE then
    match intoVec bits with
    | [0, 0] =>
      match version with
      | MPEG_Version.One => Outcome.ok ⟨44100⟩
      | MPEG_Version.Two => Outcome.ok ⟨22050⟩
      | MPEG_Version.TwoPointFive => Outcome.ok ⟨11025⟩
      | _ => Outcome.panic "unreachable"
    | [0, 1] =>
      match version with
      | MPEG_Version.One => Outcome.ok ⟨48000⟩
      | MPEG_Version.Two => Outcome.ok ⟨24000⟩
      | MPEG_Version.TwoPointFive => Outcome.ok ⟨12000⟩
      | _ => Outcome.panic "unreachable"
    | [1, 0] =>
      match version with
      | MPEG_Version.One => Outcome.ok ⟨32000⟩
      | MPEG_Version.Two => Outcome.ok ⟨16000⟩
      | MPEG_Version.TwoPointFive => Outcome.ok ⟨8000⟩
      | _ => Outcome.panic "unreachable"
    | [1, 1] => Outcome.panic "reserved"
    | _ => Outcome.panic "unreachable"
  else Outcome.panic "assertion failed"

/-- `impl From<BitVec<u8>> for Mode`: asserts the width is
`MODE_SIZE`, then pattern-matches `bits.into_vec()[..]`; the
length-2 arms cannot match the one-byte storage vector, so every
2-bit input falls to `unreachable!()`. -/
def Mode.fromBitVec (bits : List Bool) : Outcome Mode :=
  if bits.length = MODE_SIZE then
    match intoVec bits with
    | [0, 0] => Outcome.ok Mode.Stereo
    | [0, 1] => Outcome.ok Mode.JointStereo
    | [1, 0] => Outcome.ok Mode.DualChannel
    | [1, 1] => Outcome.ok Mode.SingleChannel
    | _ => Outcome.panic "unreachable"
  else Outcome.panic "assertion failed"

/-- `impl From<BitVec<u8>> for Copyright`. -/
def Copyright.fromBitVec (bits : List Bool) : Outcome Copyright :=
  if bits.length = COPYRIGHT_BIT_SIZE then
    match intoVec bits with
    | [0] => Outcome.ok Copyright.Off
    | [1] => Outcome.ok Copyright.On
    | _ => Outcome.panic "unreachable"
  else Outcome.panic "assertion failed"

/-- `impl From<BitVec<u8>> for Home`. -/
def Home.fromBitVec (bits : List Bool) : Outcome Home :=
  if bits.length = HOME_SIZE then
    match intoVec bits with
    | [0] => Outcome.ok Home.Off
    | [1] => Outcome.ok Home.On
    | _ => Outcome.panic "unreachable"
  else Outcome.panic "assertion failed"

/-- `impl From<BitVec<u8>> for Emphasis`: asserts the width is
`EMPHASIS_SIZE` (two bits) but then matches one-element patterns
`[0]` and `[1]` against `bits.into_vec()[..]`, exactly as the source
does.  These CAN match: the one-byte storage vector of a 2-bit group
is its value 0..3, so byte 0 (code `00`) gives Off and byte 1 (code
`10`) gives On, while bytes 2 and 3 hit `unreachable!()`. -/
def Emphasis.fromBitVec (bits : List Bool) : Outcome Emphasis :=
  if bits.length = EMPHASIS_SIZE then
    match intoVec bits with
    | [0] => Outcome.ok Emphasis.Off
    | [1] => Outcome.ok Emphasis.On
    | _ => Outcome.panic "unreachable"
  else Outcome.panic "assertion failed"

/-! Helper lemmas about `access` and `RawHeader.new`. -/

theorem access_ok (array : List Bool) (size cursor : Nat)
    (h : cursor + size ≤ array.length) :
    access array size cursor =
      (Outcome.ok ((array.drop cursor).take size), cursor + size) := by
  simp [access, h]

theorem rawHeader_new_spec (buf : List Bool) (c : Nat) (h : c + 32 ≤ buf.length) :
    RawHeader.new buf c =
      (Outcome.ok
        ⟨(buf.drop c).take SYNC_SIZE,
         (buf.drop (c + SYNC_SIZE)).take ID_SIZE,
         (buf.drop (c + SYNC_SIZE + ID_SIZE)).take LAYER_SIZE,
         (buf.drop (c + SYNC_SIZE + ID_SIZE + LAYER_SIZE)).take PROTECTION_BIT_SIZE,
         (buf.drop (c + SYNC_SIZE + ID_SIZE + LAYER_SIZE + PROTECTION_BIT_SIZE)).take
           BITRATE_SIZE,
         (buf.drop (c + SYNC_SIZE + ID_SIZE + LAYER_SIZE + PROTECTION_BIT_SIZE +
           BITRATE_SIZE)).take FREQUENCY_SIZE,
         (buf.drop (c + SYNC_SIZE + ID_SIZE + LAYER_SIZE + PROTECTION_BIT_SIZE +
           BITRATE_SIZE + FREQUENCY_SIZE)).take PADDING_BIT_SIZE,
         (buf.drop (c + SYNC_SIZE + ID_SIZE + LAYER_SIZE + PROTECTION_BIT_SIZE +
           BITRATE_SIZE + FREQUENCY_SIZE + PADDING_BIT_SIZE)).take PRIVATE_BIT_SIZE,
         (buf.drop (c + SYNC_SIZE + ID_SIZE + LAYER_SIZE + PROTECTION_BIT_SIZE +
           BITRATE_SIZE + FREQUENCY_SIZE + PADDING_BIT_SIZE + PRIVATE_BIT_SIZE)).take
           MODE_SIZE,
         (buf.drop (c + SYNC_SIZE + ID_SIZE + LAYER_SIZE + PROTECTION_BIT_SIZE +
           BITRATE_SIZE + FREQUENCY_SIZE + PADDING_BIT_SIZE + PRIVATE_BIT_SIZE +
           MODE_SIZE)).take MODE_EXTENSION_SIZE,
         (buf.drop (c + SYNC_SIZE + ID_SIZE + LAYER_SIZE + PROTECTION_BIT_SIZE +
           BITRATE_SIZE + FREQUENCY_SIZE + PADDING_BIT_SIZE + PRIVATE_BIT_SIZE +
           MODE_SIZE + MODE_EXTENSION_SIZE)).take COPYRIGHT_BIT_SIZE,
         (buf.drop (c + SYNC_SIZE + ID_SIZE + LAYER_SIZE + PROTECTION_BIT_SIZE +
           BITRATE_SIZE + FREQUENCY_SIZE + PADDING_BIT_SIZE + PRIVATE_BIT_SIZE +
           MODE_SIZE + MODE_EXTENSION_SIZE + COPYRIGHT_BIT_SIZE)).take HOME_SIZE,
         (buf.drop (c + SYNC_SIZE + ID_SIZE + LAYER_SIZE + PROTECTION_BIT_SIZE +
           BITRATE_SIZE + FREQUENCY_SIZE + PADDING_BIT_SIZE + PRIVATE_BIT_SIZE +
           MODE_SIZE + MODE_EXTENSION_SIZE + COPYRIGHT_BIT_SIZE + HOME_SIZE)).take
           EMPHASIS_SIZE⟩,
       c + SYNC_SIZE + ID_SIZE + LAYER_SIZE + PROTECTION_BIT_SIZE + BITRATE_SIZE +
         FREQUENCY_SIZE + PADDING_BIT_SIZE + PRIVATE_BIT_SIZE + MODE_SIZE +
         MODE_EXTENSION_SIZE + COPYRIGHT_BIT_SIZE + HOME_SIZE + EMPHASIS_SIZE) := by
  have h1 : c + 12 ≤ buf.length := by omega
  have h2 : c + 12 + 1 ≤ buf.length := by omega
  have h3 : c + 12 + 1 + 2 ≤ buf.length := by omega
  have h4 : c + 12 + 1 + 2 + 1 ≤ buf.length := by omega
  have h5 : c + 12 + 1 + 2 + 1 + 4 ≤ buf.length := by omega
  have h6 : c + 12 + 1 + 2 + 1 + 4 + 2 ≤ buf.length := by omega
  have h7 : c + 12 + 1 + 2 + 1 + 4 + 2 + 1 ≤ buf.length := by omega
  have h8 : c + 12 + 1 + 2 + 1 + 4 + 2 + 1 + 1 ≤ buf.length := by omega
  have h9 : c + 12 + 1 + 2 + 1 + 4 + 2 + 1 + 1 + 2 ≤ buf.length := by omega
  have h10 : c + 12 + 1 + 2 + 1 + 4 + 2 + 1 + 1 + 2 + 2 ≤ buf.length := by omega
  have h11 : c + 12 + 1 + 2 + 1 + 4 + 2 + 1 + 1 + 2 + 2 + 1 ≤ buf.length := by omega
  have h12 : c + 12 + 1 + 2 + 1 + 4 + 2 + 1 + 1 + 2 + 2 + 1 + 1 ≤ buf.length := by omega
  have h13 : c + 12 + 1 + 2 + 1 + 4 + 2 + 1 + 1 + 2 + 2 + 1 + 1 + 2 ≤ buf.length := by
    omega
  simp [RawHeader.new, access, andThen, SYNC_SIZE, ID_SIZE, LAYER_SIZE,
    PROTECTION_BIT_SIZE, BITRATE_SIZE, FREQUENCY_SIZE, PADDING_BIT_SIZE,
    PRIVATE_BIT_SIZE, MODE_SIZE, MODE_EXTENSION_SIZE, COPYRIGHT_BIT_SIZE, HOME_SIZE,
    EMPHASIS_SIZE, h1, h2, h3, h4, h5, h6, h7, h8, h9, h10, h11, h12, h13]

/-! Claim theorems that evaluate the decoders at concrete inputs. -/

/-- Claim C1: the spec requires a typed, inspectable error value for
every malformed or reserved bit pattern, with no process abort.  The
code instead aborts: layer bits `00`, frequency code `11` and the
legacy 2-bit version code `01` all panic via the `unreachable!()`
catch-all (their `panic!("reserved")` arms are dead, because the
one-byte `into_vec()` storage vector matches no length-2 pattern),
no error type exists anywhere in the program, and in fact every
2-bit layer group whatsoever aborts the same way. -/
theorem c1_reserved_patterns_abort :
    Layer.fromBitVec [false, false] = Outcome.panic "unreachable"
    ∧ Frequency.from_bitvecu8 [true, true] MPEG_Version.One = Outcome.panic "unreachable"
    ∧ MPEG_Version.fromBitVec [false, true] = Outcome.panic "unreachable"
    ∧ (∀ a b : Bool, Layer.fromBitVec [a, b] = Outcome.panic "unreachable") := by
  decide

/-- Claim C2: the spec requires two successive invocations of the
decode in one process to agree.  Because `CURSOR` is process-wide,
the first `RawHeader::new` on a 32-bit buffer leaves the cursor at
32, so the second invocation on the same buffer panics instead of
returning the same result. -/
theorem c2_second_invocation_differs :
    (RawHeader.new (List.replicate 32 true) 0).2 = 32
    ∧ (RawHeader.new (List.replicate 32 true) 32).1 = Outcome.panic "index out of range"
    ∧ (RawHeader.new (List.replicate 32 true) 0).1
        ≠ (RawHeader.new (List.replicate 32 true) 32).1 := by
  decide

/-- Claim C3: the spec's five example lookups.  The intended values
32/8/320 kbps and 44100/8000 Hz sit in arms of the table that are
dead code: `into_vec()` of a 4-bit (resp. 2-bit) group is a ONE-byte
storage vector (e.g. `[8]` for code `0001`), which no length-4
(resp. length-2) pattern can match, so every one of the five calls
aborts via `unreachable!()` and the program never returns these
values. -/
theorem c3_table_lookups_dead :
    intoVec [false, false, false, true] = [8]
    ∧ Bitrate.from_bitvecu8 [false, false, false, true] MPEG_Version.One Layer.One
        = Outcome.panic "unreachable"
    ∧ Bitrate.from_bitvecu8 [false, false, false, true] MPEG_Version.Two Layer.Three
        = Outcome.panic "unreachable"
    ∧ Bitrate.from_bitvecu8 [true, false, true, false] MPEG_Version.One Layer.One
        = Outcome.panic "unreachable"
    ∧ Frequency.from_bitvecu8 [false, false] MPEG_Version.One
        = Outcome.panic "unreachable"
    ∧ Frequency.from_bitvecu8 [true, false] MPEG_Version.TwoPointFive
        = Outcome.panic "unreachable" := by
  decide

/-- Claim C4: the spec names the errors `ReservedLayer`,
`ReservedBitrate`, `FreeFormatUnsupported` and `ReservedFrequency`.
The code defines no such values, and all four rejections are the
same indistinguishable `unreachable!()` abort: the `panic!("reserved")`
arms for layer `00` and frequency `11` and the dedicated
`unreachable!()` arms for bitrate `0000`/`1111` are all dead, since
the one-byte `into_vec()` storage vector matches no length-2 or
length-4 pattern. -/
theorem c4_reserved_rejection_is_panic :
    Layer.fromBitVec [false, false] = Outcome.panic "unreachable"
    ∧ (∀ (v : MPEG_Version) (l : Layer),
        Bitrate.from_bitvecu8 [true, true, true, true] v l = Outcome.panic "unreachable")
    ∧ (∀ (v : MPEG_Version) (l : Layer),
        Bitrate.from_bitvecu8 [false, false, false, false] v l = Outcome.panic "unreachable")
    ∧ (∀ v : MPEG_Version,
        Frequency.from_bitvecu8 [true, true] v = Outcome.panic "unreachable") := by
  decide

/-- Claim C5: the spec requires a sync word check (`InvalidSync`).
The program never inspects the sync bits: a buffer whose first 12
bits are all zero is split successfully and no failure is possible,
since no part of the program compares the sync group to
`111111111111`. -/
theorem c5_bad_sync_not_rejected :
    (List.replicate 32 false).take SYNC_SIZE ≠ List.replicate SYNC_SIZE true
    ∧ (RawHeader.new (List.replicate 32 false) 0).1 =
        Outcome.ok ⟨List.replicate 12 false, [false], [false, false], [false],
          [false, false, false, false], [false, false], [false], [false],
          [false, false], [false, false], [false], [false], [false, false]⟩ := by
  decide

/-- Claim C6: the spec requires a typed `BufferTooShort` error for
inputs shorter than 32 bits.  The code instead aborts with a Rust
slice-index panic inside `access` - immediately on an empty buffer,
and at the emphasis group (cursor 30) on a 31-bit buffer. -/
theorem c6_short_buffer_panics :
    RawHeader.new [] 0 = (Outcome.panic "index out of range", 0)
    ∧ RawHeader.new (List.replicate 31 true) 0 = (Outcome.panic "index out of range", 30) := by
  decide

/-- Claim C7: on a 32-bit buffer with the cursor at 0, the splitter
returns exactly the thirteen contiguous slices of the buffer, their
widths are the thirteen declared field sizes (in order
12,1,2,1,4,2,1,1,2,2,1,1,2), the widths sum to 32, and the groups
concatenate back to the whole input: no gaps and no overlap. -/
theorem c7_raw_groups_partition (buf : List Bool) (h : buf.length = HEADER_SIZE) :
    RawHeader.new buf 0 =
      (Outcome.ok
        ⟨buf.take 12, (buf.drop 12).take 1, (buf.drop 13).take 2, (buf.drop 15).take 1,
         (buf.drop 16).take 4, (buf.drop 20).take 2, (buf.drop 22).take 1,
         (buf.drop 23).take 1, (buf.drop 24).take 2, (buf.drop 26).take 2,
         (buf.drop 28).take 1, (buf.drop 29).take 1, (buf.drop 30).take 2⟩, 32)
    ∧ (buf.take 12).length = SYNC_SIZE
    ∧ ((buf.drop 12).take 1).length = ID_SIZE
    ∧ ((buf.drop 13).take 2).length = LAYER_SIZE
    ∧ ((buf.drop 15).take 1).length = PROTECTION_BIT_SIZE
    ∧ ((buf.drop 16).take 4).length = BITRATE_SIZE
    ∧ ((buf.drop 20).take 2).length = FREQUENCY_SIZE
    ∧ ((buf.drop 22).take 1).length = PADDING_BIT_SIZE
    ∧ ((buf.drop 23).take 1).length = PRIVATE_BIT_SIZE
    ∧ ((buf.drop 24).take 2).length = MODE_SIZE
    ∧ ((buf.drop 26).take 2).length = MODE_EXTENSION_SIZE
    ∧ ((buf.drop 28).take 1).length = COPYRIGHT_BIT_SIZE
    ∧ ((buf.drop 29).take 1).length = HOME_SIZE
    ∧ ((buf.drop 30).take 2).length = EMPHASIS_SIZE
    ∧ SYNC_SIZE + ID_SIZE + LAYER_SIZE + PROTECTION_BIT_SIZE + BITRATE_SIZE +
        FREQUENCY_SIZE + PADDING_BIT_SIZE + PRIVATE_BIT_SIZE + MODE_SIZE +
        MODE_EXTENSION_SIZE + COPYRIGHT_BIT_SIZE + HOME_SIZE + EMPHASIS_SIZE =
        HEADER_SIZE
    ∧ buf.take 12 ++ (buf.drop 12).take 1 ++ (buf.drop 13).take 2 ++
        (buf.drop 15).take 1 ++ (buf.drop 16).take 4 ++ (buf.drop 20).take 2 ++
        (buf.drop 22).take 1 ++ (buf.drop 23).take 1 ++ (buf.drop 24).take 2 ++
        (buf.drop 26).take 2 ++ (buf.drop 28).take 1 ++ (buf.drop 29).take 1 ++
        (buf.drop 30).take 2 = buf := by
  have h32 : buf.length = 32 := h
  refine ⟨?_, ?_⟩
  · have H := rawHeader_new_spec buf 0 (by omega)
    norm_num [SYNC_SIZE, ID_SIZE, LAYER_SIZE, PROTECTION_BIT_SIZE, BITRATE_SIZE,
      FREQUENCY_SIZE, PADDING_BIT_SIZE, PRIVATE_BIT_SIZE, MODE_SIZE,
      MODE_EXTENSION_SIZE, COPYRIGHT_BIT_SIZE, HOME_SIZE, EMPHASIS_SIZE] at H
    exact H
  refine ⟨by simp [h32], by simp [h32], by simp [h32], by simp [h32], by simp [h32],
    by simp [h32], by simp [h32], by simp [h32], by simp [h32], by simp [h32],
    by simp [h32], by simp [h32], by simp [h32], by decide, ?_⟩
  have e30 : (buf.drop 30).take 2 = buf.drop 30 :=
    List.take_of_length_le (by simp [h32])
  have e29 := List.drop_take_append_drop buf 29 1
  have e28 := List.drop_take_append_drop buf 28 1
  have e26 := List.drop_take_append_drop buf 26 2
  have e24 := List.drop_take_append_drop buf 24 2
  have e23 := List.drop_take_append_drop buf 23 1
  have e22 := List.drop_take_append_drop buf 22 1
  have e20 := List.drop_take_append_drop buf 20 2
  have e16 := List.drop_take_append_drop buf 16 4
  have e15 := List.drop_take_append_drop buf 15 1
  have e13 := List.drop_take_append_drop buf 13 2
  have e12 := List.drop_take_append_drop buf 12 1
  norm_num at e29 e28 e26 e24 e23 e22 e20 e16 e15 e13 e12
  simp only [List.append_assoc]
  rw [e30, e29, e28, e26, e24, e23, e22, e20, e16, e15, e13, e12,
    List.take_append_drop]

/-- Claim C8: the spec says the mode decoder is total, all four
2-bit codes valid.  It is not: the four mapping arms are dead code
(the one-byte `into_vec()` storage vector, e.g. `[0]` for code `00`,
matches no length-2 pattern), so every 2-bit mode code aborts via
`unreachable!()` and no input at all decodes without error. -/
theorem c8_mode_decoder_dead :
    intoVec [false, false] = [0]
    ∧ (∀ a b : Bool, Mode.fromBitVec [a, b] = Outcome.panic "unreachable")
    ∧ (∀ bits : List Bool, (Mode.fromBitVec bits).isOk = false) := by
  refine ⟨by decide, by decide, ?_⟩
  intro bits
  rcases bits with _ | ⟨a, _ | ⟨b, rest⟩⟩
  · decide
  · cases a <;> decide
  · rcases rest with _ | ⟨c, rest⟩
    · cases a <;> cases b <;> decide
    · have hne : rest.length + 1 + 1 + 1 ≠ MODE_SIZE := by
        show rest.length + 1 + 1 + 1 ≠ 2
        omega
      simp [Mode.fromBitVec, hne, Outcome.isOk]


/-- Witness for C7 at a concrete 32-bit buffer: the splitter output
evaluated on an all-ones buffer. -/
theorem c7_raw_groups_partition_witness :
    RawHeader.new (List.replicate 32 true) 0 =
      (Outcome.ok ⟨List.replicate 12 true, [true], [true, true], [true],
        [true, true, true, true], [true, true], [true], [true], [true, true],
        [true, true], [true], [true], [true, true]⟩, 32) := by
  have H := (c7_raw_groups_partition (List.replicate 32 true) (by decide)).1
  rw [H]
  decide

/-- Claim C9: an in-bounds `access` stores back its cursor plus the
requested size; one completed `RawHeader::new` starting from cursor 0
leaves the process-wide cursor at 32; and a second `RawHeader::new`
in the same process therefore slices bit indices 32..64 of its own
argument instead of indices 0..32. -/
theorem c9_global_cursor_advances (array : List Bool) (size cursor : Nat)
    (h : cursor + size ≤ array.length) (buf : List Bool) (h64 : 64 ≤ buf.length) :
    (access array size cursor).2 = cursor + size
    ∧ (RawHeader.new buf 0).2 = 32
    ∧ (RawHeader.new buf 0).1 =
        Outcome.ok ⟨buf.take 12, (buf.drop 12).take 1, (buf.drop 13).take 2,
          (buf.drop 15).take 1, (buf.drop 16).take 4, (buf.drop 20).take 2,
          (buf.drop 22).take 1, (buf.drop 23).take 1, (buf.drop 24).take 2,
          (buf.drop 26).take 2, (buf.drop 28).take 1, (buf.drop 29).take 1,
          (buf.drop 30).take 2⟩
    ∧ (RawHeader.new buf 32).1 =
        Outcome.ok ⟨(buf.drop 32).take 12, (buf.drop 44).take 1, (buf.drop 45).take 2,
          (buf.drop 47).take 1, (buf.drop 48).take 4, (buf.drop 52).take 2,
          (buf.drop 54).take 1, (buf.drop 55).take 1, (buf.drop 56).take 2,
          (buf.drop 58).take 2, (buf.drop 60).take 1, (buf.drop 61).take 1,
          (buf.drop 62).take 2⟩ := by
  refine ⟨by simp [access, h], ?_, ?_, ?_⟩
  · have H := rawHeader_new_spec buf 0 (by omega)
    rw [H]
    rfl
  · have H := rawHeader_new_spec buf 0 (by omega)
    rw [H]
    norm_num [SYNC_SIZE, ID_SIZE, LAYER_SIZE, PROTECTION_BIT_SIZE, BITRATE_SIZE,
      FREQUENCY_SIZE, PADDING_BIT_SIZE, PRIVATE_BIT_SIZE, MODE_SIZE,
      MODE_EXTENSION_SIZE, COPYRIGHT_BIT_SIZE, HOME_SIZE, EMPHASIS_SIZE]
  · have H := rawHeader_new_spec buf 32 (by omega)
    rw [H]
    norm_num [SYNC_SIZE, ID_SIZE, LAYER_SIZE, PROTECTION_BIT_SIZE, BITRATE_SIZE,
      FREQUENCY_SIZE, PADDING_BIT_SIZE, PRIVATE_BIT_SIZE, MODE_SIZE,
      MODE_EXTENSION_SIZE, COPYRIGHT_BIT_SIZE, HOME_SIZE, EMPHASIS_SIZE]

/-- Witness for C9 at a concrete call: `access` on a 64-bit buffer
with cursor 0 and size 12 leaves the cursor at 12, and a full
`RawHeader::new` leaves it at 32. -/
theorem c9_global_cursor_advances_witness :
    (access (List.replicate 64 true) 12 0).2 = 0 + 12
    ∧ (RawHeader.new (List.replicate 64 true) 0).2 = 32 := by
  have H := c9_global_cursor_advances (List.replicate 64 true) 12 0 (by decide)
    (List.replicate 64 true) (by decide)
  exact ⟨H.1, H.2.1⟩

/-! Helper lemmas for C10: destructuring lists of known length, and
the fact that each width-asserting decoder, applied to an input of
its declared width, never takes the assertion-failure branch. -/

theorem list_len_one {l : List Bool} (h : l.length = 1) : ∃ a, l = [a] := by
  rcases l with _ | ⟨a, _ | ⟨b, l⟩⟩
  · simp at h
  · exact ⟨a, rfl⟩
  · simp only [List.length_cons] at h; omega

theorem list_len_two {l : List Bool} (h : l.length = 2) : ∃ a b, l = [a, b] := by
  rcases l with _ | ⟨a, _ | ⟨b, _ | ⟨c, l⟩⟩⟩
  · simp at h
  · simp at h
  · exact ⟨a, b, rfl⟩
  · simp only [List.length_cons] at h; omega

theorem list_len_four {l : List Bool} (h : l.length = 4) : ∃ a b c d, l = [a, b, c, d] := by
  rcases l with _ | ⟨a, _ | ⟨b, _ | ⟨c, _ | ⟨d, _ | ⟨e, l⟩⟩⟩⟩⟩
  · simp at h
  · simp at h
  · simp at h
  · simp at h
  · exact ⟨a, b, c, d, rfl⟩
  · simp only [List.length_cons] at h; omega

theorem layer_no_assert :
    ∀ a b : Bool, Layer.fromBitVec [a, b] ≠ Outcome.panic "assertion failed" := by
  decide

theorem protected_no_assert :
    ∀ a : Bool, Protected.fromBitVec [a] ≠ Outcome.panic "assertion failed" := by
  decide

theorem bitrate_no_assert :
    ∀ (a b c d : Bool) (v : MPEG_Version) (l : Layer),
      Bitrate.from_bitvecu8 [a, b, c, d] v l ≠ Outcome.panic "assertion failed" := by
  decide

theorem frequency_no_assert :
    ∀ (a b : Bool) (v : MPEG_Version),
      Frequency.from_bitvecu8 [a, b] v ≠ Outcome.panic "assertion failed" := by
  decide

theorem mode_no_assert :
    ∀ a b : Bool, Mode.fromBitVec [a, b] ≠ Outcome.panic "assertion failed" := by
  decide

theorem copyright_no_assert :
    ∀ a : Bool, Copyright.fromBitVec [a] ≠ Outcome.panic "assertion failed" := by
  decide

theorem home_no_assert :
    ∀ a : Bool, Home.fromBitVec [a] ≠ Outcome.panic "assertion failed" := by
  decide

theorem emphasis_no_assert :
    ∀ a b : Bool, Emphasis.fromBitVec [a, b] ≠ Outcome.panic "assertion failed" := by
  decide

/-- No width check exists in the version decoder: on any input
whose length differs from `ID_SIZE` it still aborts, but through its
length dispatch and dead byte-pattern arms (`unreachable!()`), not
through an `assert_eq!`. -/
theorem version_width_mismatch_aborts (bits : List Bool)
    (hne : bits.length ≠ ID_SIZE) :
    MPEG_Version.fromBitVec bits = Outcome.panic "unreachable" := by
  rcases bits with _ | ⟨a, _ | ⟨b, rest⟩⟩
  · rfl
  · exact absurd rfl hne
  · rcases rest with _ | ⟨c, rest⟩
    · cases a <;> cases b <;> decide
    · rfl

/-- Claim C10: every field decoder aborts when its input width
differs from the field's declared width - the eight `assert_eq!`
decoders with the assertion failure, the assert-free version decoder
via `unreachable!()` - and on the groups of a `RawHeader` built with
the cursor at 0 on a 32-bit buffer every decoder receives exactly
its declared width, so no length assertion ever fires. -/
theorem c10_width_checks (bits : List Bool) (v : MPEG_Version) (l : Layer)
    (buf : List Bool) (h : buf.length = HEADER_SIZE) :
    (bits.length ≠ ID_SIZE →
      MPEG_Version.fromBitVec bits = Outcome.panic "unreachable")
    ∧ (bits.length ≠ LAYER_SIZE →
      Layer.fromBitVec bits = Outcome.panic "assertion failed")
    ∧ (bits.length ≠ PROTECTION_BIT_SIZE →
      Protected.fromBitVec bits = Outcome.panic "assertion failed")
    ∧ (bits.length ≠ BITRATE_SIZE →
      Bitrate.from_bitvecu8 bits v l = Outcome.panic "assertion failed")
    ∧ (bits.length ≠ FREQUENCY_SIZE →
      Frequency.from_bitvecu8 bits v = Outcome.panic "assertion failed")
    ∧ (bits.length ≠ MODE_SIZE →
      Mode.fromBitVec bits = Outcome.panic "assertion failed")
    ∧ (bits.length ≠ COPYRIGHT_BIT_SIZE →
      Copyright.fromBitVec bits = Outcome.panic "assertion failed")
    ∧ (bits.length ≠ HOME_SIZE →
      Home.fromBitVec bits = Outcome.panic "assertion failed")
    ∧ (bits.length ≠ EMPHASIS_SIZE →
      Emphasis.fromBitVec bits = Outcome.panic "assertion failed")
    ∧ (RawHeader.new buf 0).1 =
        Outcome.ok ⟨buf.take 12, (buf.drop 12).take 1, (buf.drop 13).take 2,
          (buf.drop 15).take 1, (buf.drop 16).take 4, (buf.drop 20).take 2,
          (buf.drop 22).take 1, (buf.drop 23).take 1, (buf.drop 24).take 2,
          (buf.drop 26).take 2, (buf.drop 28).take 1, (buf.drop 29).take 1,
          (buf.drop 30).take 2⟩
    ∧ ((buf.drop 12).take 1).length = ID_SIZE
    ∧ ((buf.drop 13).take 2).length = LAYER_SIZE
    ∧ ((buf.drop 15).take 1).length = PROTECTION_BIT_SIZE
    ∧ ((buf.drop 16).take 4).length = BITRATE_SIZE
    ∧ ((buf.drop 20).take 2).length = FREQUENCY_SIZE
    ∧ ((buf.drop 24).take 2).length = MODE_SIZE
    ∧ ((buf.drop 28).take 1).length = COPYRIGHT_BIT_SIZE
    ∧ ((buf.drop 29).take 1).length = HOME_SIZE
    ∧ ((buf.drop 30).take 2).length = EMPHASIS_SIZE
    ∧ Layer.fromBitVec ((buf.drop 13).take 2) ≠ Outcome.panic "assertion failed"
    ∧ Protected.fromBitVec ((buf.drop 15).take 1) ≠ Outcome.panic "assertion failed"
    ∧ Bitrate.from_bitvecu8 ((buf.drop 16).take 4) v l ≠ Outcome.panic "assertion failed"
    ∧ Frequency.from_bitvecu8 ((buf.drop 20).take 2) v ≠ Outcome.panic "assertion failed"
    ∧ Mode.fromBitVec ((buf.drop 24).take 2) ≠ Outcome.panic "assertion failed"
    ∧ Copyright.fromBitVec ((buf.drop 28).take 1) ≠ Outcome.panic "assertion failed"
    ∧ Home.fromBitVec ((buf.drop 29).take 1) ≠ Outcome.panic "assertion failed"
    ∧ Emphasis.fromBitVec ((buf.drop 30).take 2) ≠ Outcome.panic "assertion failed" := by
  have h32 : buf.length = 32 := h
  have l13 : ((buf.drop 13).take 2).length = 2 := by
    simp only [List.length_take, List.length_drop, h32]; omega
  have l15 : ((buf.drop 15).take 1).length = 1 := by
    simp only [List.length_take, List.length_drop, h32]; omega
  have l16 : ((buf.drop 16).take 4).length = 4 := by
    simp only [List.length_take, List.length_drop, h32]; omega
  have l20 : ((buf.drop 20).take 2).length = 2 := by
    simp only [List.length_take, List.length_drop, h32]; omega
  have l24 : ((buf.drop 24).take 2).length = 2 := by
    simp only [List.length_take, List.length_drop, h32]; omega
  have l28 : ((buf.drop 28).take 1).length = 1 := by
    simp only [List.length_take, List.length_drop, h32]; omega
  have l29 : ((buf.drop 29).take 1).length = 1 := by
    simp only [List.length_take, List.length_drop, h32]; omega
  have l30 : ((buf.drop 30).take 2).length = 2 := by
    simp only [List.length_take, List.length_drop, h32]; omega
  obtain ⟨a1, b1, e13⟩ := list_len_two l13
  obtain ⟨a2, e15⟩ := list_len_one l15
  obtain ⟨a3, b3, c3, d3, e16⟩ := list_len_four l16
  obtain ⟨a4, b4, e20⟩ := list_len_two l20
  obtain ⟨a5, b5, e24⟩ := list_len_two l24
  obtain ⟨a6, e28⟩ := list_len_one l28
  obtain ⟨a7, e29⟩ := list_len_one l29
  obtain ⟨a8, b8, e30⟩ := list_len_two l30
  refine ⟨fun hne => version_width_mismatch_aborts bits hne,
    fun hne => by unfold Layer.fromBitVec; rw [if_neg hne],
    fun hne => by unfold Protected.fromBitVec; rw [if_neg hne],
    fun hne => by unfold Bitrate.from_bitvecu8; rw [if_neg hne],
    fun hne => by unfold Frequency.from_bitvecu8; rw [if_neg hne],
    fun hne => by unfold Mode.fromBitVec; rw [if_neg hne],
    fun hne => by unfold Copyright.fromBitVec; rw [if_neg hne],
    fun hne => by unfold Home.fromBitVec; rw [if_neg hne],
    fun hne => by unfold Emphasis.fromBitVec; rw [if_neg hne],
    ?_, by simp [h32], by simp [h32], by simp [h32], by simp [h32], by simp [h32],
    by simp [h32], by simp [h32], by simp [h32], by simp [h32],
    ?_, ?_, ?_, ?_, ?_, ?_, ?_, ?_⟩
  · have H := rawHeader_new_spec buf 0 (by omega)
    rw [H]
    norm_num [SYNC_SIZE, ID_SIZE, LAYER_SIZE, PROTECTION_BIT_SIZE, BITRATE_SIZE,
      FREQUENCY_SIZE, PADDING_BIT_SIZE, PRIVATE_BIT_SIZE, MODE_SIZE,
      MODE_EXTENSION_SIZE, COPYRIGHT_BIT_SIZE, HOME_SIZE, EMPHASIS_SIZE]
  · rw [e13]; exact layer_no_assert a1 b1
  · rw [e15]; exact protected_no_assert a2
  · rw [e16]; exact bitrate_no_assert a3 b3 c3 d3 v l
  · rw [e20]; exact frequency_no_assert a4 b4 v
  · rw [e24]; exact mode_no_assert a5 b5
  · rw [e28]; exact copyright_no_assert a6
  · rw [e29]; exact home_no_assert a7
  · rw [e30]; exact emphasis_no_assert a8 b8

/-- Witness for C10 at concrete inputs: an empty group aborts both
the assert-free version decoder and the asserting layer decoder,
while the layer group of a real 32-bit split does not trip the
assertion. -/
theorem c10_width_checks_witness :
    MPEG_Version.fromBitVec [] = Outcome.panic "unreachable"
    ∧ Layer.fromBitVec [] = Outcome.panic "assertion failed"
    ∧ Layer.fromBitVec (((List.replicate 32 true).drop 13).take 2)
        ≠ Outcome.panic "assertion failed" := by
  obtain ⟨hv, hl, _, _, _, _, _, _, _, _, _, _, _, _, _, _, _, _, _, nl, _⟩ :=
    c10_width_checks [] MPEG_Version.One Layer.One (List.replicate 32 true) (by decide)
  exact ⟨hv (by decide), hl (by decide), nl⟩

end Chomp3
